import Mathlib

/-!
Verification of the logfather logging library against its specification.

The development shallowly embeds the data model (`Level`, `Logger`) from
`src/logger.rs` and the dispatch / sink-loop logic from `src/output.rs`.
External collaborators (the `dekor` style function and the `chrono` time
formatter) are passed as function parameters, as the spec treats them as
opaque pure collaborators.  I/O performed by the synchronous `result_log`
path is modelled by an environment record holding the outcome of each
fallible operating-system step.
-/

namespace Logfather

/-- Text styles from the external `dekor` crate (only the constructors the
default configuration uses are needed; the set is opaque to the core). -/
inductive Style where
  | Bold
  | Underline
  | FGPurple
  | FGBlue
  | FGGreen
  | FGYellow
  | FGRed
  | FGCyan
  | BGBlue
  deriving DecidableEq, Fintype

/-- Modelled from the spec: the current `Level` enum is missing from `src`
(`src/src/logger.rs` holds an older variant without `Fatal`, while
`src/src/macros.rs` `fatal!` references `Level::Fatal` and `src/src/lib.rs`
re-exports symbols the older file does not define).  Canonical ordering from
the spec: Trace < Debug < Info < Warning < Error < Critical < Fatal <
Diagnostic < None.  Ordinals follow the older enum (Trace = 0 .. Critical = 5,
Diagnostic = 245, None = 255) with Fatal = 6 slotted after Critical. -/
inductive Level where
  | Trace
  | Debug
  | Info
  | Warning
  | Error
  | Critical
  | Fatal
  | Diagnostic
  | None
  deriving DecidableEq, Fintype

/-- The discriminant value of each `Level` variant. -/
def Level.ord : Level → Nat
  | .Trace => 0
  | .Debug => 1
  | .Info => 2
  | .Warning => 3
  | .Error => 4
  | .Critical => 5
  | .Fatal => 6
  | .Diagnostic => 245
  | .None => 255

instance : LT Level := ⟨fun a b => a.ord < b.ord⟩

instance : LE Level := ⟨fun a b => a.ord ≤ b.ord⟩

instance (a b : Level) : Decidable (a < b) :=
  inferInstanceAs (Decidable (a.ord < b.ord))

instance (a b : Level) : Decidable (a ≤ b) :=
  inferInstanceAs (Decidable (a.ord ≤ b.ord))

/-- `impl std::fmt::Display for Level` — the fixed label of each level
(`FATAL` modelled from the spec alongside the `Fatal` variant). -/
def Level.toString : Level → String
  | .Trace => "TRACE"
  | .Debug => "DEBUG"
  | .Info => "INFO"
  | .Warning => "WARNING"
  | .Error => "ERROR"
  | .Critical => "CRITICAL"
  | .Fatal => "FATAL"
  | .Diagnostic => "DIAGNOSTIC"
  | .None => "NONE"

/-- `TimeZone` selection (`logger.rs`). -/
inductive TimeZone where
  | Local
  | Utc
  deriving DecidableEq

/-- The per-level style map (`styles: HashMap<Level, Vec<Style>>`).  A
`HashMap` is modelled as an association list; its iteration order is
unspecified and unused, only lookup and insert semantics matter. -/
def StyleMap := List (Level × List Style)

instance : DecidableEq StyleMap :=
  inferInstanceAs (DecidableEq (List (Level × List Style)))

/-- `HashMap::get` on the style map. -/
def stylesGet (m : StyleMap) (lvl : Level) : Option (List Style) :=
  (m.find? (fun p => p.1 == lvl)).map Prod.snd

/-- `HashMap::insert` on the style map: replaces any existing binding of the
key (modelled by erasing the key then consing the new binding; iteration
order of a `HashMap` is unspecified, so only lookup behaviour is relevant). -/
def stylesInsert (m : StyleMap) (lvl : Level) (ss : List Style) : StyleMap :=
  (lvl, ss) :: m.filter (fun p => p.1 != lvl)

/-- The `Logger` configuration struct (`src/src/logger.rs`).  The field
`path: Option<PathBuf>` is read by the current `src/src/output.rs` under the
name `file_path`, which is the name used here.  The field `file_rollover` is
modelled from the spec ("rollover threshold (max retained lines; 0 =
disabled)"): its declaration is in the missing current `logger.rs`, while its
use is in `src/src/output.rs` (`file_roller`). -/
structure Logger where
  file_path : Option String
  terminal_output : Bool
  file_output : Bool
  output_level : Level
  ignore : List Level
  file_ignore : List Level
  terminal_ignore : List Level
  log_format : String
  timezone : TimeZone
  timestamp_format : String
  styles : StyleMap
  file_rollover : Nat
  deriving DecidableEq

/-- `Logger::new` — the default configuration. -/
def Logger.new : Logger where
  file_path := none
  terminal_output := true
  file_output := false
  output_level := .Trace
  ignore := []
  file_ignore := []
  terminal_ignore := []
  log_format := "[{timestamp} {level} {module_path}] {message}"
  timezone := .Local
  timestamp_format := "%Y-%m-%d %H:%M:%S"
  styles :=
    [ (.Trace, [.FGPurple])
    , (.Debug, [.FGBlue])
    , (.Info, [.FGGreen])
    , (.Warning, [.FGYellow])
    , (.Error, [.FGRed])
    , (.Critical, [.Bold, .FGRed])
    , (.Diagnostic, [.Bold, .FGCyan])
    , (.None, []) ]
  file_rollover := 0

/-- `set_logger`: `*LOGGER = new_logger.clone()` — replaces the global
singleton (first argument) with the given configuration. -/
def set_logger (_LOGGER new_logger : Logger) : Logger := new_logger

/-!
Each builder setter of `Logger` mutates `self`, and (for all setters except
`Logger::style`) publishes the updated value to the global `LOGGER` singleton
via `set_logger(self)` before returning `self.to_owned()`.  A setter is
modelled as a function from `(self, LOGGER)` to the pair
`(returned value, new LOGGER value)`.  Setters whose Rust name collides with
the struct field of the same name carry a prime.
-/

/-- `Logger::path` — sets the log-file path and publishes. -/
def Logger.path (self LOGGER : Logger) (p : String) : Logger × Logger :=
  let self := { self with file_path := some p }
  (self, set_logger LOGGER self)

/-- `Logger::terminal` — enables/disables terminal output and publishes. -/
def Logger.terminal (self LOGGER : Logger) (value : Bool) : Logger × Logger :=
  let self := { self with terminal_output := value }
  (self, set_logger LOGGER self)

/-- `Logger::file` — enables/disables file output and publishes. -/
def Logger.file (self LOGGER : Logger) (value : Bool) : Logger × Logger :=
  let self := { self with file_output := value }
  (self, set_logger LOGGER self)

/-- `Logger::level` — sets the minimum output level and publishes. -/
def Logger.level (self LOGGER : Logger) (lvl : Level) : Logger × Logger :=
  let self := { self with output_level := lvl }
  (self, set_logger LOGGER self)

/-- `Logger::ignore` — pushes a level onto the global ignore list and
publishes. -/
def Logger.ignore' (self LOGGER : Logger) (lvl : Level) : Logger × Logger :=
  let self := { self with ignore := self.ignore ++ [lvl] }
  (self, set_logger LOGGER self)

/-- `Logger::file_ignore` — pushes a level onto the file ignore list and
publishes. -/
def Logger.file_ignore' (self LOGGER : Logger) (lvl : Level) : Logger × Logger :=
  let self := { self with file_ignore := self.file_ignore ++ [lvl] }
  (self, set_logger LOGGER self)

/-- `Logger::terminal_ignore` — pushes a level onto the terminal ignore list
and publishes. -/
def Logger.terminal_ignore' (self LOGGER : Logger) (lvl : Level) : Logger × Logger :=
  let self := { self with terminal_ignore := self.terminal_ignore ++ [lvl] }
  (self, set_logger LOGGER self)

/-- `Logger::log_format` — sets the log line template and publishes. -/
def Logger.log_format' (self LOGGER : Logger) (format : String) : Logger × Logger :=
  let self := { self with log_format := format }
  (self, set_logger LOGGER self)

/-- `Logger::timezone` — sets the timezone selection and publishes. -/
def Logger.timezone' (self LOGGER : Logger) (tz : TimeZone) : Logger × Logger :=
  let self := { self with timezone := tz }
  (self, set_logger LOGGER self)

/-- `Logger::timestamp_format` — sets the timestamp template and publishes. -/
def Logger.timestamp_format' (self LOGGER : Logger) (format : String) : Logger × Logger :=
  let self := { self with timestamp_format := format }
  (self, set_logger LOGGER self)

/-- `Logger::style` — replaces a level's full style list.  Note: the source
(`logger.rs` lines 374–377) does NOT call `set_logger`, so the global
singleton is left untouched. -/
def Logger.style (self LOGGER : Logger) (lvl : Level) (style_set : List Style) :
    Logger × Logger :=
  let self := { self with styles := stylesInsert self.styles lvl style_set }
  (self, LOGGER)

/-- `Logger::add_style` — appends one style to a level's style list and
publishes; `none` models the `.expect` panic when the level has no entry. -/
def Logger.add_style (self LOGGER : Logger) (lvl : Level) (st : Style) :
    Option (Logger × Logger) :=
  match stylesGet self.styles lvl with
  | none => none
  | some styles =>
    let self := { self with styles := stylesInsert self.styles lvl (styles ++ [st]) }
    some (self, set_logger LOGGER self)

/-- `Logger::remove_style` — removes every occurrence of a style from a
level's style list (`retain`) and publishes; `none` models the `.expect`
panic when the level has no entry. -/
def Logger.remove_style (self LOGGER : Logger) (lvl : Level) (st : Style) :
    Option (Logger × Logger) :=
  match stylesGet self.styles lvl with
  | none => none
  | some styles =>
    let self :=
      { self with styles := stylesInsert self.styles lvl (styles.filter (fun s => s != st)) }
    some (self, set_logger LOGGER self)

/-- `Logger::styles` (query) — returns the style list of a level; `none`
models the `.expect` panic when the level has no entry. -/
def Logger.stylesOf (self : Logger) (lvl : Level) : Option (List Style) :=
  stylesGet self.styles lvl

/-!
Dispatch (`src/src/output.rs`).  The two in-memory queues are modelled
explicitly; the external `dekor::style` decorator and the `chrono` timestamp
renderer are opaque pure collaborators passed as parameters `styleExt` and
`timeExt`.  A returned `none` models a panic (`unwrap` of a missing style
entry).
-/

/-- The two in-memory sink queues (`TERMINAL_BUFFER` and `FILE_BUFFER`). -/
structure Buffers where
  terminal_buffer : List String
  file_buffer : List String
  deriving DecidableEq

/-- The shared filter guard of `log`, `structured_log` and `result_log`
(`output.rs` lines 40–42, 104–106, 193–196):
`level < logger.output_level || logger.ignore.contains(&level)`. -/
def dispatchDrops (logger : Logger) (level : Level) : Bool :=
  decide (level < logger.output_level) || logger.ignore.contains level

/-- Template rendering shared by the dispatch entry points: the literal,
repeated substitution of `{timestamp}`, `{module_path}` and `{message}`
(`{level}` is substituted last, per sink). -/
def renderBase (logger : Logger) (timeExt : TimeZone → String → String)
    (module_path message : String) : String :=
  let time := timeExt logger.timezone logger.timestamp_format
  ((logger.log_format.replace "{timestamp}" time).replace "{module_path}"
    module_path).replace "{message}" message

/-- `output.rs::log` — the fire-and-forget dispatch entry point: reads a
clone of the global configuration, applies the filter, renders the line and
pushes it onto the terminal and/or file queue.  Returns the updated queues,
or `none` for the `unwrap` panic on a missing style entry. -/
def log (styleExt : List Style → Level → String)
    (timeExt : TimeZone → String → String) (LOGGER : Logger) (level : Level)
    (module_path message : String) (bufs : Buffers) : Option Buffers :=
  let logger := LOGGER
  if dispatchDrops logger level then some bufs
  else
    let log_format := renderBase logger timeExt module_path message
    let terminalRes : Option (List String) :=
      if logger.terminal_output && !(logger.terminal_ignore.contains level) then
        (stylesGet logger.styles level).map (fun styles =>
          bufs.terminal_buffer ++ [log_format.replace "{level}" (styleExt styles level)])
      else some bufs.terminal_buffer
    match terminalRes with
    | none => none
    | some tb =>
      let format := log_format.replace "{level}" level.toString
      let fb :=
        if logger.file_output && !(logger.file_ignore.contains level)
            && logger.file_path.isSome then
          bufs.file_buffer ++ [format]
        else bufs.file_buffer
      some { terminal_buffer := tb, file_buffer := fb }

/-- The typed failure values of the synchronous path (`src/src/error.rs`);
payloads are carried as plain message strings. -/
inductive LogfatherError where
  | LoggerAccessError (msg : String)
  | FileAccessError (msg : String)
  | IoError (msg : String)
  deriving DecidableEq

instance {ε α : Type _} [DecidableEq ε] [DecidableEq α] : DecidableEq (Except ε α)
  | .error a, .error b =>
    if h : a = b then .isTrue (congrArg Except.error h)
    else .isFalse (fun hc => h (Except.error.inj hc))
  | .error _, .ok _ => .isFalse (fun hc => Except.noConfusion hc)
  | .ok _, .error _ => .isFalse (fun hc => Except.noConfusion hc)
  | .ok a, .ok b =>
    if h : a = b then .isTrue (congrArg Except.ok h)
    else .isFalse (fun hc => h (Except.ok.inj hc))

/-- Outcome of each fallible operating-system step that `result_log` can
perform, supplied as an oracle: lock acquisitions and I/O calls either
succeed or fail with an error message. -/
structure Env where
  logger_read : Except String Unit
  current_dir : Except String String
  create_dir_all : Except String Unit
  open_file : Except String Unit
  file_lock : Except String Unit
  write_line : Except String Unit
  deriving DecidableEq

/-- The observable effects of one `result_log` call: the `(path, line)`
pairs appended to the log file and the lines printed to the terminal. -/
structure SyncOutput where
  file_writes : List (String × String)
  prints : List String
  deriving DecidableEq

/-- `PathBuf::push`: appends one component after a separator. -/
def pathPush (p component : String) : String := p ++ "/" ++ component

/-- `output.rs::result_log` — the synchronous dispatch entry point: same
filter, then performs the file write (current-directory fallback for an
empty path, directory creation, open, lock, write) and the terminal print in
the calling thread, propagating every I/O or lock failure as a typed
`LogfatherError`.  `none` models the `unwrap` panic on a missing style
entry in the terminal branch. -/
def result_log (styleExt : List Style → Level → String)
    (timeExt : TimeZone → String → String) (env : Env) (LOGGER : Logger)
    (level : Level) (mod_path message : String) :
    Option (Except LogfatherError SyncOutput) :=
  match env.logger_read with
  | .error e => some (.error (.LoggerAccessError e))
  | .ok _ =>
    let logger := LOGGER
    if dispatchDrops logger level then some (.ok { file_writes := [], prints := [] })
    else
      let log_format := renderBase logger timeExt mod_path message
      let fileRes : Except LogfatherError (List (String × String)) :=
        if logger.file_output && !(logger.file_ignore.contains level) then
          match logger.file_path with
          | none => .ok []
          | some path0 =>
            let pathRes : Except LogfatherError String :=
              if path0.isEmpty then
                match env.current_dir with
                | .error e => .error (.IoError e)
                | .ok cwd => .ok (pathPush cwd ".logger")
              else .ok path0
            match pathRes with
            | .error e => .error e
            | .ok path =>
              match env.create_dir_all with
              | .error e => .error (.IoError e)
              | .ok _ =>
                match env.open_file with
                | .error e => .error (.IoError e)
                | .ok _ =>
                  let format := log_format.replace "{level}" level.toString
                  match env.file_lock with
                  | .error e => .error (.FileAccessError e)
                  | .ok _ =>
                    match env.write_line with
                    | .error e => .error (.IoError e)
                    | .ok _ => .ok [(path, format)]
        else .ok []
      match fileRes with
      | .error e => some (.error e)
      | .ok writes =>
        if logger.terminal_output && !(logger.terminal_ignore.contains level) then
          (stylesGet logger.styles level).map (fun styles =>
            ({ file_writes := writes
             , prints := [log_format.replace "{level}" (styleExt styles level)] } :
              SyncOutput) |> Except.ok)
        else some (.ok { file_writes := writes, prints := [] })

/-!
File rollover loop (`output.rs::file_roller`).  One cycle of the loop is a
pure transition on the shared file contents (the lines of the open `FILE`
handle, `none` when no file is open) and the shared `LOCKED` flag.
-/

/-- The state the rollover loop acts on: the open file handle's contents as
a list of lines (`FILE`), and the rollover-in-progress flag (`LOCKED`). -/
structure RollState where
  file : Option (List String)
  locked : Bool
  deriving DecidableEq

/-- One cycle of `output.rs::file_roller`: idles when file output is off, no
path or no open handle is configured, the threshold is `0`, or the line
count is within the threshold; otherwise sets `LOCKED`, truncates, rewrites
only the last `file_rollover` lines (`split_off(len - rollover)`) and clears
`LOCKED`. -/
def file_roller_cycle (logger : Logger) (st : RollState) : RollState :=
  if !logger.file_output || logger.file_path.isNone then st
  else if logger.file_rollover == 0 then st
  else
    match st.file with
    | none => st
    | some logs =>
      if logs.length ≤ logger.file_rollover then st
      else
        { file := some (logs.drop (logs.length - logger.file_rollover))
        , locked := false }

/-!
Shared concrete instantiations of the external collaborators, used by the
witness theorems.
-/

/-- A concrete stand-in for the external `dekor` style decorator. -/
def styleFn0 : List Style → Level → String := fun _ lvl => lvl.toString

/-- A concrete stand-in for the external `chrono` timestamp renderer. -/
def timeFn0 : TimeZone → String → String := fun _ _ => "2024-01-01 00:00:00"

/-- A configuration with only the file sink active, used by witnesses. -/
def cfgFileOnly : Logger :=
  { Logger.new with
      terminal_output := false
      file_output := true
      file_path := some "log.txt" }

/-- An environment in which every operating-system step succeeds. -/
def envAllOk : Env where
  logger_read := .ok ()
  current_dir := .ok "/cwd"
  create_dir_all := .ok ()
  open_file := .ok ()
  file_lock := .ok ()
  write_line := .ok ()

/-- C6: `Level` is a strict total order whose chain, from lowest to highest
urgency, is Trace < Debug < Info < Warning < Error < Critical < Fatal <
Diagnostic < None; in particular `Fatal` sits between `Critical` and
`Diagnostic`. -/
theorem level_strict_total_order :
    (Level.Trace < Level.Debug ∧ Level.Debug < Level.Info ∧
     Level.Info < Level.Warning ∧ Level.Warning < Level.Error ∧
     Level.Error < Level.Critical ∧ Level.Critical < Level.Fatal ∧
     Level.Fatal < Level.Diagnostic ∧ Level.Diagnostic < Level.None) ∧
    (∀ a b : Level, a < b ∨ a = b ∨ b < a) ∧
    (∀ a b c : Level, a < b → b < c → a < c) ∧
    (∀ a : Level, ¬a < a) := by
  refine ⟨by decide, by decide, ?_, by decide⟩
  decide

/-- Witness for C6: transitivity applied at concrete levels. -/
theorem level_strict_total_order_witness : Level.Trace < Level.Info :=
  level_strict_total_order.2.2.1 Level.Trace Level.Debug Level.Info
    (by decide) (by decide)

/-- C1: for levels `L1 < L2`, when the configured minimum output level is
`L2` (or `L1` is in the global ignore list), `log` at `L1` leaves both sink
queues unchanged and returns without rendering or panicking. -/
theorem log_below_min_or_ignored_silent (styleExt : List Style → Level → String)
    (timeExt : TimeZone → String → String) (cfg : Logger) (L1 L2 : Level)
    (mp msg : String) (bufs : Buffers) (hlt : L1 < L2)
    (h : cfg.output_level = L2 ∨ cfg.ignore.contains L1 = true) :
    log styleExt timeExt cfg L1 mp msg bufs = some bufs := by
  have hdrop : dispatchDrops cfg L1 = true := by
    rcases h with h | h
    · unfold dispatchDrops
      rw [h]
      simp [hlt]
    · unfold dispatchDrops
      rw [h]
      simp
  simp [log, hdrop]

/-- Witness for C1: with minimum level `Error`, an `Info` message changes
nothing. -/
theorem log_below_min_or_ignored_silent_witness :
    Level.Info < Level.Error ∧
      log styleFn0 timeFn0 { Logger.new with output_level := Level.Error }
        Level.Info "m" "x" { terminal_buffer := [], file_buffer := [] } =
        some { terminal_buffer := [], file_buffer := [] } :=
  ⟨by decide,
   log_below_min_or_ignored_silent styleFn0 timeFn0 _ Level.Info Level.Error
     "m" "x" _ (by decide) (Or.inl rfl)⟩

/-- C2 divergence: with the minimum output level set to `None`, a
`Diagnostic` message is dropped by the dispatch filter exactly like any
other level — the filter is the plain ordinal comparison plus ignore-set
membership, with no special-casing for `Diagnostic`, contradicting the
documented "bypass all filtering" behaviour. -/
theorem diagnostic_dropped_at_level_none :
    dispatchDrops { Logger.new with output_level := Level.None }
        Level.Diagnostic = true ∧
      log styleFn0 timeFn0 { Logger.new with output_level := Level.None }
        Level.Diagnostic "m" "x" { terminal_buffer := [], file_buffer := [] } =
        some { terminal_buffer := [], file_buffer := [] } := by
  constructor
  · decide
  · simp [log]
    decide

/-- C7: setting the minimum output level to the sentinel `None` suppresses
every other level, including `Critical` and `Diagnostic`: `log` leaves both
sink queues unchanged. -/
theorem level_none_suppresses_all (styleExt : List Style → Level → String)
    (timeExt : TimeZone → String → String) (cfg : Logger) (L : Level)
    (mp msg : String) (bufs : Buffers) (hne : L ≠ Level.None)
    (hmin : cfg.output_level = Level.None) :
    log styleExt timeExt cfg L mp msg bufs = some bufs := by
  have hlt : L < Level.None := by
    cases L <;> first | exact absurd rfl hne | decide
  have hdrop : dispatchDrops cfg L = true := by
    unfold dispatchDrops
    rw [hmin]
    simp [hlt]
  simp [log, hdrop]

/-- Witness for C7: with minimum level `None`, a `Critical` message changes
nothing. -/
theorem level_none_suppresses_all_witness :
    Level.Critical ≠ Level.None ∧
      log styleFn0 timeFn0 { Logger.new with output_level := Level.None }
        Level.Critical "m" "x" { terminal_buffer := [], file_buffer := [] } =
        some { terminal_buffer := [], file_buffer := [] } :=
  ⟨by decide,
   level_none_suppresses_all styleFn0 timeFn0 _ Level.Critical "m" "x" _
     (by decide) rfl⟩

/-- C3 counterexample: `Logger::style` does not publish — after calling it,
the global singleton differs from the value the setter returns. -/
theorem style_setter_does_not_publish :
    ¬(Logger.style Logger.new Logger.new Level.Info [Style.Bold]).2 =
      (Logger.style Logger.new Logger.new Level.Info [Style.Bold]).1 := by
  decide

/-- C3 amended: every `Logger` setter except `style` replaces the global
singleton with the updated configuration, so the singleton equals the value
the setter returns; `style` only returns the updated configuration and
leaves the singleton untouched. -/
theorem setters_publish_except_style (self g : Logger) (p fmt : String)
    (b : Bool) (lvl : Level) (tz : TimeZone) (st : Style) (ss : List Style) :
    (self.path g p).2 = (self.path g p).1 ∧
    (self.terminal g b).2 = (self.terminal g b).1 ∧
    (self.file g b).2 = (self.file g b).1 ∧
    (self.level g lvl).2 = (self.level g lvl).1 ∧
    (self.ignore' g lvl).2 = (self.ignore' g lvl).1 ∧
    (self.file_ignore' g lvl).2 = (self.file_ignore' g lvl).1 ∧
    (self.terminal_ignore' g lvl).2 = (self.terminal_ignore' g lvl).1 ∧
    (self.log_format' g fmt).2 = (self.log_format' g fmt).1 ∧
    (self.timezone' g tz).2 = (self.timezone' g tz).1 ∧
    (self.timestamp_format' g fmt).2 = (self.timestamp_format' g fmt).1 ∧
    (self.add_style g lvl st).map Prod.snd = (self.add_style g lvl st).map Prod.fst ∧
    (self.remove_style g lvl st).map Prod.snd =
      (self.remove_style g lvl st).map Prod.fst ∧
    (self.style g lvl ss).2 = g := by
  refine ⟨rfl, rfl, rfl, rfl, rfl, rfl, rfl, rfl, rfl, rfl, ?_, ?_, rfl⟩
  · cases h : stylesGet self.styles lvl <;>
      simp [Logger.add_style, h, set_logger]
  · cases h : stylesGet self.styles lvl <;>
      simp [Logger.remove_style, h, set_logger]

/-- C8: ignore-list filtering is independent of minimum-level filtering.
For a level at or above the minimum: global-ignore membership silences both
sink queues, while membership in only the file ignore list leaves the file
queue unchanged yet the enabled, non-terminal-ignored terminal queue still
receives the rendered line. -/
theorem ignore_lists_independent (styleExt : List Style → Level → String)
    (timeExt : TimeZone → String → String) (cfg : Logger) (lvl : Level)
    (mp msg : String) (bufs : Buffers) (ss : List Style)
    (hmin : ¬lvl < cfg.output_level) :
    (cfg.ignore.contains lvl = true →
      log styleExt timeExt cfg lvl mp msg bufs = some bufs) ∧
    (cfg.ignore.contains lvl = false → cfg.file_ignore.contains lvl = true →
      cfg.terminal_output = true → cfg.terminal_ignore.contains lvl = false →
      stylesGet cfg.styles lvl = some ss →
      log styleExt timeExt cfg lvl mp msg bufs =
        some { terminal_buffer :=
                 bufs.terminal_buffer ++
                   [(renderBase cfg timeExt mp msg).replace "{level}"
                      (styleExt ss lvl)]
             , file_buffer := bufs.file_buffer }) := by
  constructor
  · intro hig
    have hdrop : dispatchDrops cfg lvl = true := by
      unfold dispatchDrops
      rw [hig]
      simp
    simp [log, hdrop]
  · intro hnig hfig hterm htig hss
    have hdrop : dispatchDrops cfg lvl = false := by
      unfold dispatchDrops
      rw [hnig]
      simp [hmin]
    have htig' : lvl ∉ cfg.terminal_ignore := by simpa using htig
    have hfig' : lvl ∈ cfg.file_ignore := by simpa using hfig
    simp [log, hdrop, hterm, htig', hfig', hss]

/-- Witness for C8: with `Warning` globally ignored both queues are
unchanged, and with `Warning` only file-ignored the terminal queue receives
the rendered line. -/
theorem ignore_lists_independent_witness :
    (log styleFn0 timeFn0 { Logger.new with ignore := [Level.Warning] }
        Level.Warning "m" "x" { terminal_buffer := [], file_buffer := [] } =
      some { terminal_buffer := [], file_buffer := [] }) ∧
    (log styleFn0 timeFn0 { Logger.new with file_ignore := [Level.Warning] }
        Level.Warning "m" "x" { terminal_buffer := [], file_buffer := [] } =
      some { terminal_buffer :=
               [(renderBase { Logger.new with file_ignore := [Level.Warning] }
                   timeFn0 "m" "x").replace "{level}"
                  (styleFn0 [Style.FGYellow] Level.Warning)]
           , file_buffer := [] }) :=
  ⟨(ignore_lists_independent styleFn0 timeFn0 _ Level.Warning "m" "x" _
      [Style.FGYellow] (by decide)).1 (by decide),
   (ignore_lists_independent styleFn0 timeFn0 _ Level.Warning "m" "x" _
      [Style.FGYellow] (by decide)).2 (by decide) (by decide) rfl (by decide)
      (by decide)⟩

/-- C4: with an active file sink and rollover threshold `N > 0`, one cycle
of the rollover loop truncates a file of more than `N` lines to exactly its
last `N` lines in original relative order and leaves the rollover-in-progress
flag `false`; a file of at most `N` lines is left entirely unchanged. -/
theorem file_roller_cycle_keeps_last_lines (cfg : Logger) (st : RollState)
    (logs : List String) (hfo : cfg.file_output = true)
    (hfp : cfg.file_path.isSome = true) (hN : 0 < cfg.file_rollover)
    (hfile : st.file = some logs) :
    (cfg.file_rollover < logs.length →
      file_roller_cycle cfg st =
        { file := some (logs.drop (logs.length - cfg.file_rollover))
        , locked := false } ∧
      (logs.drop (logs.length - cfg.file_rollover)).length = cfg.file_rollover ∧
      logs.take (logs.length - cfg.file_rollover) ++
        logs.drop (logs.length - cfg.file_rollover) = logs) ∧
    (logs.length ≤ cfg.file_rollover → file_roller_cycle cfg st = st) := by
  obtain ⟨p, hp⟩ := Option.isSome_iff_exists.mp hfp
  have hz : (cfg.file_rollover == 0) = false := by
    simp
    omega
  constructor
  · intro hover
    have hle : ¬logs.length ≤ cfg.file_rollover := by omega
    refine ⟨?_, ?_, List.take_append_drop _ _⟩
    · simp [file_roller_cycle, hfo, hp, hz, hfile, hle]
    · simp
      omega
  · intro hle
    simp [file_roller_cycle, hfo, hp, hz, hfile, hle]

/-- Witness for C4: a five-line file with threshold 3 rolls over to its last
three lines with the flag cleared. -/
theorem file_roller_cycle_keeps_last_lines_witness :
    file_roller_cycle { cfgFileOnly with file_rollover := 3 }
        { file := some ["l1", "l2", "l3", "l4", "l5"], locked := false } =
      { file := some ["l3", "l4", "l5"], locked := false } :=
  ((file_roller_cycle_keeps_last_lines { cfgFileOnly with file_rollover := 3 }
      { file := some ["l1", "l2", "l3", "l4", "l5"], locked := false }
      ["l1", "l2", "l3", "l4", "l5"] rfl rfl (by decide) rfl).1
    (by decide)).1

/-- Lookup after insert on the style map returns the inserted list. -/
theorem stylesGet_stylesInsert (m : StyleMap) (lvl : Level) (ss : List Style) :
    stylesGet (stylesInsert m lvl ss) lvl = some ss := by
  simp [stylesGet, stylesInsert, List.find?]

/-- C9: style configuration round-trips.  `style(L, S)` followed by
`styles(L)` returns exactly `S`; composing `add_style` in either order
yields style lists equal as sets, and `remove_style` yields the set
difference, so the composed result is determined up to set equality
independently of insertion order. -/
theorem style_roundtrip_and_set_semantics (self g : Logger) (lvl : Level)
    (S : List Style) (a b : Style) (xs : List Style) :
    ((Logger.style self g lvl S).1.stylesOf lvl = some S) ∧
    (stylesGet self.styles lvl = some xs →
      ((Logger.add_style self g lvl a).bind fun r =>
          Logger.add_style r.1 r.2 lvl b).map (fun r => r.1.stylesOf lvl) =
        some (some (xs ++ [a] ++ [b])) ∧
      ((Logger.add_style self g lvl b).bind fun r =>
          Logger.add_style r.1 r.2 lvl a).map (fun r => r.1.stylesOf lvl) =
        some (some (xs ++ [b] ++ [a])) ∧
      (xs ++ [a] ++ [b]).toFinset = (xs ++ [b] ++ [a]).toFinset) ∧
    (stylesGet self.styles lvl = some xs →
      (Logger.remove_style self g lvl b).map (fun r => r.1.stylesOf lvl) =
        some (some (xs.filter (fun s => s != b))) ∧
      (xs.filter (fun s => s != b)).toFinset = xs.toFinset.erase b) := by
  refine ⟨?_, fun hxs => ⟨?_, ?_, ?_⟩, fun hxs => ⟨?_, ?_⟩⟩
  · simp [Logger.style, Logger.stylesOf, stylesGet_stylesInsert]
  · simp [Logger.add_style, hxs, set_logger, stylesGet_stylesInsert,
      Logger.stylesOf]
  · simp [Logger.add_style, hxs, set_logger, stylesGet_stylesInsert,
      Logger.stylesOf]
  · ext s
    simp [List.mem_append]
    tauto
  · simp [Logger.remove_style, hxs, set_logger, stylesGet_stylesInsert,
      Logger.stylesOf]
  · ext s
    simp [List.mem_filter, Finset.mem_erase, bne_iff_ne]
    tauto

/-- Witness for C9: the round-trip and the set-level composition laws at the
default configuration's `Info` entry. -/
theorem style_roundtrip_and_set_semantics_witness :
    ((Logger.style Logger.new Logger.new Level.Info [Style.FGRed]).1.stylesOf
        Level.Info = some [Style.FGRed]) ∧
    ((Logger.add_style Logger.new Logger.new Level.Info Style.Bold).bind fun r =>
        Logger.add_style r.1 r.2 Level.Info Style.Underline).map
        (fun r => r.1.stylesOf Level.Info) =
      some (some [Style.FGGreen, Style.Bold, Style.Underline]) ∧
    ([Style.FGGreen, Style.Bold, Style.Underline] : List Style).toFinset =
      ([Style.FGGreen, Style.Underline, Style.Bold] : List Style).toFinset :=
  ⟨(style_roundtrip_and_set_semantics Logger.new Logger.new Level.Info
      [Style.FGRed] Style.Bold Style.Underline [Style.FGGreen]).1,
   ((style_roundtrip_and_set_semantics Logger.new Logger.new Level.Info
      [Style.FGRed] Style.Bold Style.Underline [Style.FGGreen]).2.1 rfl).1,
   ((style_roundtrip_and_set_semantics Logger.new Logger.new Level.Info
      [Style.FGRed] Style.Bold Style.Underline [Style.FGGreen]).2.1 rfl).2.2⟩

/-- C5: `result_log` returns `Ok(())` for a filtered message without
performing any write, and otherwise performs the file write synchronously,
surfacing every lock or I/O failure — logger-lock poisoning, the
current-directory lookup of the empty-path fallback, directory creation,
file open, file-lock acquisition and the write itself — as the
corresponding typed `LogfatherError` instead of panicking or dropping it.
The resolved path `q` is the configured path when it is non-empty, and
`current_dir()/.logger` when it is empty; the success case is covered for
both states of the terminal sink. -/
theorem result_log_filters_or_propagates_errors
    (styleExt : List Style → Level → String)
    (timeExt : TimeZone → String → String) (env : Env) (cfg : Logger)
    (lvl : Level) (mp msg : String) :
    (∀ e, env.logger_read = .error e →
      result_log styleExt timeExt env cfg lvl mp msg =
        some (.error (.LoggerAccessError e))) ∧
    (env.logger_read = .ok () → dispatchDrops cfg lvl = true →
      result_log styleExt timeExt env cfg lvl mp msg =
        some (.ok { file_writes := [], prints := [] })) ∧
    (∀ p, env.logger_read = .ok () → dispatchDrops cfg lvl = false →
      cfg.file_output = true → cfg.file_ignore.contains lvl = false →
      cfg.file_path = some p →
      (p.isEmpty = true → ∀ e, env.current_dir = .error e →
        result_log styleExt timeExt env cfg lvl mp msg =
          some (.error (.IoError e))) ∧
      (∀ q, (p.isEmpty = false ∧ q = p) ∨
            (p.isEmpty = true ∧
              ∃ cwd, env.current_dir = .ok cwd ∧ q = pathPush cwd ".logger") →
        (∀ e, env.create_dir_all = .error e →
          result_log styleExt timeExt env cfg lvl mp msg =
            some (.error (.IoError e))) ∧
        (env.create_dir_all = .ok () → ∀ e, env.open_file = .error e →
          result_log styleExt timeExt env cfg lvl mp msg =
            some (.error (.IoError e))) ∧
        (env.create_dir_all = .ok () → env.open_file = .ok () →
          ∀ e, env.file_lock = .error e →
          result_log styleExt timeExt env cfg lvl mp msg =
            some (.error (.FileAccessError e))) ∧
        (env.create_dir_all = .ok () → env.open_file = .ok () →
          env.file_lock = .ok () → ∀ e, env.write_line = .error e →
          result_log styleExt timeExt env cfg lvl mp msg =
            some (.error (.IoError e))) ∧
        (env.create_dir_all = .ok () → env.open_file = .ok () →
          env.file_lock = .ok () → env.write_line = .ok () →
          ((cfg.terminal_output = false ∨
              cfg.terminal_ignore.contains lvl = true) →
            result_log styleExt timeExt env cfg lvl mp msg =
              some (.ok { file_writes :=
                            [(q, (renderBase cfg timeExt mp msg).replace
                                   "{level}" lvl.toString)]
                        , prints := [] })) ∧
          (∀ ss, cfg.terminal_output = true →
            cfg.terminal_ignore.contains lvl = false →
            stylesGet cfg.styles lvl = some ss →
            result_log styleExt timeExt env cfg lvl mp msg =
              some (.ok { file_writes :=
                            [(q, (renderBase cfg timeExt mp msg).replace
                                   "{level}" lvl.toString)]
                        , prints :=
                            [(renderBase cfg timeExt mp msg).replace "{level}"
                               (styleExt ss lvl)] }))))) := by
  refine ⟨?_, ?_, ?_⟩
  · intro e he
    simp [result_log, he]
  · intro hr hdrop
    simp [result_log, hr, hdrop]
  · intro p hr hdrop hfo hfi hpath
    have hfi' : lvl ∉ cfg.file_ignore := by simpa using hfi
    constructor
    · intro hp e hcw
      simp [result_log, hr, hdrop, hfo, hfi', hpath, hp, hcw]
    · intro q hq
      have hred : ∀ (rest : String → Except LogfatherError
            (List (String × String))),
          (match (if p.isEmpty = true then
                    match env.current_dir with
                    | .error e => Except.error (LogfatherError.IoError e)
                    | .ok cwd => Except.ok (pathPush cwd ".logger")
                  else Except.ok p :
                  Except LogfatherError String) with
           | .error e => Except.error e
           | .ok path => rest path) = rest q := by
        intro rest
        rcases hq with ⟨hp, hqp⟩ | ⟨hp, cwd, hcw, hqp⟩
        · subst hqp
          simp [hp]
        · subst hqp
          simp [hp, hcw]
      refine ⟨?_, ?_, ?_, ?_, ?_⟩
      · intro e hcd
        simp only [result_log, hr, hdrop, hfo, hfi', hpath]
        simp [hred, hcd, hfi']
      · intro hcd e hof
        simp only [result_log, hr, hdrop, hfo, hfi', hpath]
        simp [hred, hcd, hof, hfi']
      · intro hcd hof e hfl
        simp only [result_log, hr, hdrop, hfo, hfi', hpath]
        simp [hred, hcd, hof, hfl, hfi']
      · intro hcd hof hfl e hwl
        simp only [result_log, hr, hdrop, hfo, hfi', hpath]
        simp [hred, hcd, hof, hfl, hwl, hfi']
      · intro hcd hof hfl hwl
        constructor
        · intro hterm
          rcases hterm with hterm | htig
          · simp only [result_log, hr, hdrop, hfo, hfi', hpath]
            simp [hred, hcd, hof, hfl, hwl, hfi', hterm]
          · have htig' : lvl ∈ cfg.terminal_ignore := by simpa using htig
            simp only [result_log, hr, hdrop, hfo, hfi', hpath]
            simp [hred, hcd, hof, hfl, hwl, hfi', htig']
        · intro ss hterm htig hss
          have htig' : lvl ∉ cfg.terminal_ignore := by simpa using htig
          simp only [result_log, hr, hdrop, hfo, hfi', hpath]
          simp [hred, hcd, hof, hfl, hwl, hfi', hterm, htig', hss]

/-- Witness for C5: at concrete configurations, a filtered call returns
`Ok` with no writes, a failing current-directory lookup on the empty path
surfaces as `IoError`, a failing directory creation as `IoError`, a
poisoned file lock as `FileAccessError`, and the all-success environment
performs exactly one write, with the terminal print when the terminal sink
is enabled. -/
theorem result_log_filters_or_propagates_errors_witness :
    (result_log styleFn0 timeFn0 envAllOk
        { cfgFileOnly with output_level := Level.Error } Level.Info "m" "x" =
      some (.ok { file_writes := [], prints := [] })) ∧
    (result_log styleFn0 timeFn0 { envAllOk with current_dir := .error "nodir" }
        { cfgFileOnly with file_path := some "" } Level.Error "m" "x" =
      some (.error (.IoError "nodir"))) ∧
    (result_log styleFn0 timeFn0 { envAllOk with create_dir_all := .error "denied" }
        cfgFileOnly Level.Error "m" "x" =
      some (.error (.IoError "denied"))) ∧
    (result_log styleFn0 timeFn0 { envAllOk with file_lock := .error "poisoned" }
        cfgFileOnly Level.Error "m" "x" =
      some (.error (.FileAccessError "poisoned"))) ∧
    (result_log styleFn0 timeFn0 envAllOk cfgFileOnly Level.Error "m" "x" =
      some (.ok { file_writes :=
                    [("log.txt",
                      (renderBase cfgFileOnly timeFn0 "m" "x").replace "{level}"
                        Level.Error.toString)]
                , prints := [] })) ∧
    (result_log styleFn0 timeFn0 envAllOk
        { Logger.new with file_output := true, file_path := some "log.txt" }
        Level.Error "m" "x" =
      some (.ok { file_writes :=
                    [("log.txt",
                      (renderBase
                          { Logger.new with
                              file_output := true
                              file_path := some "log.txt" }
                          timeFn0 "m" "x").replace "{level}"
                        Level.Error.toString)]
                , prints :=
                    [(renderBase
                        { Logger.new with
                            file_output := true
                            file_path := some "log.txt" }
                        timeFn0 "m" "x").replace "{level}"
                       (styleFn0 [Style.FGRed] Level.Error)] })) :=
  ⟨(result_log_filters_or_propagates_errors styleFn0 timeFn0 envAllOk
      { cfgFileOnly with output_level := Level.Error } Level.Info "m" "x").2.1
      rfl (by decide),
   ((result_log_filters_or_propagates_errors styleFn0 timeFn0
      { envAllOk with current_dir := .error "nodir" }
      { cfgFileOnly with file_path := some "" } Level.Error "m" "x").2.2 ""
      rfl (by decide) rfl (by decide) rfl).1 rfl "nodir" rfl,
   (((result_log_filters_or_propagates_errors styleFn0 timeFn0
      { envAllOk with create_dir_all := .error "denied" } cfgFileOnly
      Level.Error "m" "x").2.2 "log.txt" rfl (by decide) rfl (by decide)
      rfl).2 "log.txt" (Or.inl ⟨rfl, rfl⟩)).1 "denied" rfl,
   ((((result_log_filters_or_propagates_errors styleFn0 timeFn0
      { envAllOk with file_lock := .error "poisoned" } cfgFileOnly
      Level.Error "m" "x").2.2 "log.txt" rfl (by decide) rfl (by decide)
      rfl).2 "log.txt" (Or.inl ⟨rfl, rfl⟩)).2.2.1 rfl rfl "poisoned" rfl),
   (((((result_log_filters_or_propagates_errors styleFn0 timeFn0 envAllOk
      cfgFileOnly Level.Error "m" "x").2.2 "log.txt" rfl (by decide) rfl
      (by decide) rfl).2 "log.txt" (Or.inl ⟨rfl, rfl⟩)).2.2.2.2 rfl rfl rfl
      rfl).1 (Or.inl rfl)),
   (((((result_log_filters_or_propagates_errors styleFn0 timeFn0 envAllOk
      { Logger.new with file_output := true, file_path := some "log.txt" }
      Level.Error "m" "x").2.2 "log.txt" rfl (by decide) rfl (by decide)
      rfl).2 "log.txt" (Or.inl ⟨rfl, rfl⟩)).2.2.2.2 rfl rfl rfl rfl).2
      [Style.FGRed] rfl (by decide) (by decide))⟩

/-- C10: with file output enabled and the configured path equal to the empty
string, `result_log` does not fail on the empty path: it falls back to the
file `.logger` under the process's current working directory, and returns an
error only when the current directory cannot be determined. -/
theorem result_log_empty_path_fallback (styleExt : List Style → Level → String)
    (timeExt : TimeZone → String → String) (env : Env) (cfg : Logger)
    (lvl : Level) (mp msg : String) (hr : env.logger_read = .ok ())
    (hdrop : dispatchDrops cfg lvl = false) (hfo : cfg.file_output = true)
    (hfi : cfg.file_ignore.contains lvl = false)
    (hpath : cfg.file_path = some "") :
    (∀ cwd, env.current_dir = .ok cwd → env.create_dir_all = .ok () →
      env.open_file = .ok () → env.file_lock = .ok () →
      env.write_line = .ok () → cfg.terminal_output = false →
      result_log styleExt timeExt env cfg lvl mp msg =
        some (.ok { file_writes :=
                      [(pathPush cwd ".logger",
                        (renderBase cfg timeExt mp msg).replace "{level}"
                          lvl.toString)]
                  , prints := [] })) ∧
    (∀ e, env.current_dir = .error e →
      result_log styleExt timeExt env cfg lvl mp msg =
        some (.error (.IoError e))) := by
  have hfi' : lvl ∉ cfg.file_ignore := by simpa using hfi
  have hemp : "".isEmpty = true := rfl
  constructor
  · intro cwd hcw hcd hof hfl hwl hterm
    simp [result_log, hr, hdrop, hfo, hfi', hpath, hcw, hcd, hof, hfl, hwl,
      hterm, hemp]
  · intro e hcw
    simp [result_log, hr, hdrop, hfo, hfi', hpath, hcw, hemp]

/-- Witness for C10: a concrete empty-path configuration writes to
`/cwd/.logger` when the current directory is available, and surfaces an
`IoError` when it is not. -/
theorem result_log_empty_path_fallback_witness :
    (result_log styleFn0 timeFn0 envAllOk { cfgFileOnly with file_path := some "" }
        Level.Error "m" "x" =
      some (.ok { file_writes :=
                    [("/cwd/.logger",
                      (renderBase { cfgFileOnly with file_path := some "" }
                          timeFn0 "m" "x").replace "{level}"
                        Level.Error.toString)]
                , prints := [] })) ∧
    (result_log styleFn0 timeFn0 { envAllOk with current_dir := .error "gone" }
        { cfgFileOnly with file_path := some "" } Level.Error "m" "x" =
      some (.error (.IoError "gone"))) :=
  ⟨(result_log_empty_path_fallback styleFn0 timeFn0 envAllOk
      { cfgFileOnly with file_path := some "" } Level.Error "m" "x" rfl
      (by decide) rfl (by decide) rfl).1 "/cwd" rfl rfl rfl rfl rfl rfl,
   (result_log_empty_path_fallback styleFn0 timeFn0
      { envAllOk with current_dir := .error "gone" }
      { cfgFileOnly with file_path := some "" } Level.Error "m" "x" rfl
      (by decide) rfl (by decide) rfl).2 "gone" rfl⟩

end Logfather
